import Mathlib

/-!
Verification of the ts-rust-error-handling library: a TypeScript port of
Rust's `Option` and `Result` types.  The two classes (`Option<T>` in
`Option.ts`, `Result<T, E>` in `Result.ts`) are shallowly embedded here.

Because the TypeScript payloads are dynamically typed (`transpose` and
`flatten` perform `instanceof` checks on the payload at run time, and a
container can hold another container as its payload), the embedding uses a
universe `Value` of JavaScript-like values that mutually contains the two
container types.  A method that can `throw` is modelled as returning
`Except String α`, the `String` being the message of the thrown `Error`.

In-place mutation (`Option`'s `insert` / `getOrInsert` / `getOrInsertWith` /
`take` / `replace` assign to `this.internal`) is modelled by explicit state
passing: such a method returns a pair of its return value and the receiver's
internal state after the call.  All other method bodies contain no
assignment; the per-operation `effect` functions record, branch by branch,
the receiver state and the states of any container arguments after a call.
-/

namespace TsRust

mutual

/-- A dynamically typed JavaScript value: primitives, pairs (arrays of two
elements, produced by `zip`), and the two container classes. -/
inductive Value : Type where
  | num : Int → Value
  | str : String → Value
  | null : Value
  | undefined : Value
  | pair : Value → Value → Value
  | opt : Option → Value
  | res : Result → Value

/-- The internal state of an `Option<T>` object: `{ type: OptionType.None }`
or `{ type: OptionType.Some, value }` (Option.ts). -/
inductive Option : Type where
  | None : Option
  | Some : Value → Option

/-- The internal state of a `Result<T, E>` object: `{ type: ResultType.Ok,
value }` or `{ type: ResultType.Err, error }` (Result.ts). -/
inductive Result : Type where
  | Ok : Value → Result
  | Err : Value → Result

end

/-- JavaScript template-literal stringification `${x}` as used by the thrown
error messages: strings embed verbatim, numbers print in decimal, `null` and
`undefined` print their names, and class instances print as
`[object Object]`. -/
def Value.toJsString : Value → String
  | .num n => toString n
  | .str s => s
  | .null => "null"
  | .undefined => "undefined"
  | .pair _ _ => "[object Object]"
  | .opt _ => "[object Object]"
  | .res _ => "[object Object]"

/-! ## `Result<T, E>` (Result.ts)

No method of the class assigns to `this.internal`, so each method is a pure
function of the receiver's internal state. -/

/-- `isOk()`: `this.internal.type === ResultType.Ok`. -/
def Result.isOk : Result → Bool
  | .Ok _ => true
  | .Err _ => false

/-- `isErr()`: `this.internal.type === ResultType.Err`. -/
def Result.isErr : Result → Bool
  | .Ok _ => false
  | .Err _ => true

/-- `expect(message)`: throws `` `${message}: ${this.internal.error}` `` on
`Err`, returns the value on `Ok`. -/
def Result.expect (message : String) : Result → Except String Value
  | .Err e => Except.error (message ++ ": " ++ e.toJsString)
  | .Ok v => Except.ok v

/-- `unwrap()`: throws `` `${this.internal.error}` `` on `Err`, returns the
value on `Ok`. -/
def Result.unwrap : Result → Except String Value
  | .Err e => Except.error e.toJsString
  | .Ok v => Except.ok v

/-- `unwrapOr(defaultValue)`. -/
def Result.unwrapOr (defaultValue : Value) : Result → Value
  | .Err _ => defaultValue
  | .Ok v => v

/-- `unwrapOrElse(defaultValueFunc)`: the fallback receives the error. -/
def Result.unwrapOrElse (defaultValueFunc : Value → Value) : Result → Value
  | .Err e => defaultValueFunc e
  | .Ok v => v

/-- `unwrapOrDefault()`: throws unconditionally. -/
def Result.unwrapOrDefault : Result → Except String Value := fun _ =>
  Except.error "Not implemented: use either `unwrapOr` or `unwrapOrElse` instead."

/-- `expectErr(message)`: throws `` `${message}: ${this.internal.value}` `` on
`Ok`, returns the error on `Err`. -/
def Result.expectErr (message : String) : Result → Except String Value
  | .Ok v => Except.error (message ++ ": " ++ v.toJsString)
  | .Err e => Except.ok e

/-- `unwrapErr()`: throws `` `${this.internal.value}` `` on `Ok`, returns the
error on `Err`. -/
def Result.unwrapErr : Result → Except String Value
  | .Ok v => Except.error v.toJsString
  | .Err e => Except.ok e

/-- `err()`: `Err(e) -> Some(e)`, `Ok(_) -> None`. -/
def Result.err : Result → Option
  | .Err e => Option.Some e
  | .Ok _ => Option.None

/-- `ok()`: `Err(_) -> None`, `Ok(v) -> Some(v)`. -/
def Result.ok : Result → Option
  | .Err _ => Option.None
  | .Ok v => Option.Some v

/-- `transpose()` (Result.ts lines 124-140): on `Err(e)` it rebuilds the
result and returns `Option.Some(new Result({type: Err, error: e}))`; on `Ok`
whose payload is an `Option` instance it returns `Option.None()` when that
payload is `None`, and `Option.Some(value.unwrap())` — the *raw* inner value
of the nested option — when it is `Some`; any other `Ok` payload throws. -/
def Result.transpose : Result → Except String Option
  | .Err e => Except.ok (Option.Some (Value.res (Result.Err e)))
  | .Ok (Value.opt Option.None) => Except.ok Option.None
  | .Ok (Value.opt (Option.Some v)) => Except.ok (Option.Some v)
  | .Ok _ => Except.error "Called `transpose` on a invalid `Ok` value."

/-- `map(valueMapperFunc)`: transforms the `Ok` payload, keeps `Err`. -/
def Result.map (valueMapperFunc : Value → Value) : Result → Result
  | .Err e => .Err e
  | .Ok v => .Ok (valueMapperFunc v)

/-- `mapErr(errorMapperFunc)`: transforms the `Err` payload, keeps `Ok`. -/
def Result.mapErr (errorMapperFunc : Value → Value) : Result → Result
  | .Ok v => .Ok v
  | .Err e => .Err (errorMapperFunc e)

/-- `mapOr(defaultValue, valueMapperFunc)`. -/
def Result.mapOr (defaultValue : Value) (valueMapperFunc : Value → Value) :
    Result → Value
  | .Err _ => defaultValue
  | .Ok v => valueMapperFunc v

/-- `mapOrElse(defaultValueFunc, valueMapperFunc)`: the fallback receives the
error. -/
def Result.mapOrElse (defaultValueFunc : Value → Value)
    (valueMapperFunc : Value → Value) : Result → Value
  | .Err e => defaultValueFunc e
  | .Ok v => valueMapperFunc v

/-- `and(other)`: `Err` propagates (returns `this`), `Ok` yields `other`. -/
def Result.and : Result → Result → Result
  | .Err e, _ => .Err e
  | .Ok _, other => other

/-- `or(other)`: `Ok` propagates (returns `this`), `Err` yields `other`. -/
def Result.or : Result → Result → Result
  | .Ok v, _ => .Ok v
  | .Err _, other => other

/-- `andThen(valueConverterFunc)`: bind on the `Ok` side. -/
def Result.andThen (valueConverterFunc : Value → Result) : Result → Result
  | .Err e => .Err e
  | .Ok v => valueConverterFunc v

/-- `orElse(errorConverterFunc)`: bind on the `Err` side. -/
def Result.orElse (errorConverterFunc : Value → Result) : Result → Result
  | .Ok v => .Ok v
  | .Err e => errorConverterFunc e

/-- `intoIter()`: the element sequence of the generator — empty on `Err`,
the single value on `Ok`. -/
def Result.intoIter : Result → List Value
  | .Err _ => []
  | .Ok v => [v]

/-! ## `Option<T>` (Option.ts)

Only `insert`, `getOrInsert`, `getOrInsertWith`, `take` and `replace` assign
to `this.internal`; those five return a pair of their return value and the
receiver's internal state after the call.  Every other method body contains
no assignment and is a pure function of the receiver's internal state. -/

/-- `isNone()`: `this.internal.type === OptionType.None`. -/
def Option.isNone : Option → Bool
  | .None => true
  | .Some _ => false

/-- `isSome()`: `this.internal.type === OptionType.Some`. -/
def Option.isSome : Option → Bool
  | .None => false
  | .Some _ => true

/-- `expect(message)`: throws `message` on `None`, returns the value on
`Some`. -/
def Option.expect (message : String) : Option → Except String Value
  | .None => Except.error message
  | .Some v => Except.ok v

/-- `unwrap()`: throws on `None`, returns the value on `Some`. -/
def Option.unwrap : Option → Except String Value
  | .None => Except.error "Called `Option.unwrap()` on a `None` value."
  | .Some v => Except.ok v

/-- `unwrapOr(defaultValue)`. -/
def Option.unwrapOr (defaultValue : Value) : Option → Value
  | .None => defaultValue
  | .Some v => v

/-- `unwrapOrElse(defaultValueFunc)`: the fallback is a nullary callback. -/
def Option.unwrapOrElse (defaultValueFunc : Unit → Value) : Option → Value
  | .None => defaultValueFunc ()
  | .Some v => v

/-- `unwrapOrDefault()`: throws unconditionally. -/
def Option.unwrapOrDefault : Option → Except String Value := fun _ =>
  Except.error "Not implemented: use either `unwrapOr` or `unwrapOrElse` instead."

/-- `okOr(error)`: `None -> Result.Err(error)`, `Some(v) -> Result.Ok(v)`. -/
def Option.okOr (error : Value) : Option → Result
  | .None => Result.Err error
  | .Some v => Result.Ok v

/-- `okOrElse(errorFunc)`: as `okOr` with the error computed lazily. -/
def Option.okOrElse (errorFunc : Unit → Value) : Option → Result
  | .None => Result.Err (errorFunc ())
  | .Some v => Result.Ok v

/-- `transpose()` (Option.ts lines 338-354): on `None` it returns
`Result.Ok(new Option({type: None}))`; on `Some` whose payload is a `Result`
instance it returns `Result.Err(value.unwrapErr())` when that payload is
`Err`, and `Result.Ok(value.unwrap())` — the *raw* inner value of the nested
result — when it is `Ok`; any other `Some` payload throws. -/
def Option.transpose : Option → Except String Result
  | .None => Except.ok (Result.Ok (Value.opt Option.None))
  | .Some (Value.res (Result.Err e)) => Except.ok (Result.Err e)
  | .Some (Value.res (Result.Ok v)) => Except.ok (Result.Ok v)
  | .Some _ => Except.error "Called `transpose` on a invalid `Some` value."

/-- `filter(predicate)`: a copy of the `Some` if the predicate holds of its
value, otherwise a fresh `None`. -/
def Option.filter (predicate : Value → Bool) : Option → Option
  | .Some v => if predicate v then .Some v else .None
  | .None => .None

/-- `flatten()` (Option.ts lines 366-385): unwraps one nesting level when the
payload is itself an `Option` instance; throws on a non-nested `Some`. -/
def Option.flatten : Option → Except String Option
  | .None => Except.ok .None
  | .Some (Value.opt Option.None) => Except.ok .None
  | .Some (Value.opt (Option.Some v)) => Except.ok (.Some v)
  | .Some _ => Except.error "Called `flatten` on a non-nested `Some` value."

/-- `map(valueMapperFunc)` (Option.ts lines 387-394): `None` stays `None`,
`Some(v)` becomes `Some(valueMapperFunc(v))`. -/
def Option.map (valueMapperFunc : Value → Value) : Option → Option
  | .None => .None
  | .Some v => .Some (valueMapperFunc v)

/-- `mapOr(defaultValue, valueMapperFunc)`. -/
def Option.mapOr (defaultValue : Value) (valueMapperFunc : Value → Value) :
    Option → Value
  | .None => defaultValue
  | .Some v => valueMapperFunc v

/-- `mapOrElse(defaultValueFunc, valueMapperFunc)`. -/
def Option.mapOrElse (defaultValueFunc : Unit → Value)
    (valueMapperFunc : Value → Value) : Option → Value
  | .None => defaultValueFunc ()
  | .Some v => valueMapperFunc v

/-- `zip(other)`: `Some([v, w])` when both are `Some`, else `None`. -/
def Option.zip : Option → Option → Option
  | .None, _ => .None
  | .Some _, .None => .None
  | .Some v, .Some w => .Some (Value.pair v w)

/-- `zipWith(other, valueZipperFunc)`. -/
def Option.zipWith (valueZipperFunc : Value → Value → Value) :
    Option → Option → Option
  | .None, _ => .None
  | .Some _, .None => .None
  | .Some v, .Some w => .Some (valueZipperFunc v w)

/-- `and(other)`: `None` propagates (returns `this`), `Some` yields
`other`. -/
def Option.and : Option → Option → Option
  | .None, _ => .None
  | .Some _, other => other

/-- `or(other)`: `None` yields `other`, `Some` returns `this`. -/
def Option.or : Option → Option → Option
  | .None, other => other
  | .Some v, _ => .Some v

/-- `xor(other)` (Option.ts lines 455-466): `Some`/`None` returns `this`;
`None`/`Some` returns `other`; every remaining case — both `None` *and also
both `Some`* — falls through to `return this`. -/
def Option.xor : Option → Option → Option
  | .Some v, .None => .Some v
  | .None, .Some w => .Some w
  | self, _ => self

/-- `andThen(valueConverterFunc)`: bind on the `Some` side. -/
def Option.andThen (valueConverterFunc : Value → Option) : Option → Option
  | .None => .None
  | .Some v => valueConverterFunc v

/-- `orElse(getterFunc)`: on `None` the callback supplies the result. -/
def Option.orElse (getterFunc : Unit → Option) : Option → Option
  | .None => getterFunc ()
  | .Some v => .Some v

/-- `intoIter()`: the element sequence of the generator — empty on `None`,
the single value on `Some`. -/
def Option.intoIter : Option → List Value
  | .None => []
  | .Some v => [v]

/-! ### In-place mutators: each returns (return value, receiver state after
the call). -/

/-- `insert(value)` (Option.ts lines 495-503): sets `this.internal` to
`Some(value)` in both branches and returns the now-contained value. -/
def Option.insert (value : Value) : Option → Value × Option := fun _ =>
  (value, .Some value)

/-- `getOrInsert(value)` (Option.ts lines 505-511): on `None` sets
`this.internal` to `Some(value)`; returns the contained value either way. -/
def Option.getOrInsert (value : Value) : Option → Value × Option
  | .None => (value, .Some value)
  | .Some w => (w, .Some w)

/-- `getOrInsertWith(insertValueFunc)` (Option.ts lines 513-519): as
`getOrInsert` with the value computed only when `None`. -/
def Option.getOrInsertWith (insertValueFunc : Unit → Value) :
    Option → Value × Option
  | .None => (insertValueFunc (), .Some (insertValueFunc ()))
  | .Some w => (w, .Some w)

/-- `getOrInsertDefault()` (Option.ts lines 521-523): throws before any
assignment. -/
def Option.getOrInsertDefault : Option → Except String Value := fun _ =>
  Except.error "Not implemented: use either `getOrInsert` or `getOrInsertWith` instead."

/-- `take()` (Option.ts lines 525-530): saves `this.internal`, sets
`this.internal` to `None`, and returns a new `Option` built from the saved
state. -/
def Option.take : Option → Option × Option := fun o => (o, .None)

/-- `replace(value)` (Option.ts lines 532-537): saves `this.internal`, sets
`this.internal` to `Some(value)`, and returns a new `Option` built from the
saved state. -/
def Option.replace (value : Value) : Option → Option × Option := fun o =>
  (o, .Some value)

/-! ## Frame effects

One constructor per public method of each class, carrying the method's
arguments.  `effect` records, for each operation and receiver state, the
receiver's internal state after the call and the internal states after the
call of every container passed as an argument, read off the method bodies:
the five mutators assign to `this.internal` as modelled by their pair-valued
definitions above, and no method body assigns to `other.internal`. -/

/-- The public methods of `Option<T>` with their arguments. -/
inductive OptionOp : Type where
  | isNone : OptionOp
  | isSome : OptionOp
  | expect : String → OptionOp
  | unwrap : OptionOp
  | unwrapOr : Value → OptionOp
  | unwrapOrElse : (Unit → Value) → OptionOp
  | unwrapOrDefault : OptionOp
  | okOr : Value → OptionOp
  | okOrElse : (Unit → Value) → OptionOp
  | transpose : OptionOp
  | filter : (Value → Bool) → OptionOp
  | flatten : OptionOp
  | map : (Value → Value) → OptionOp
  | mapOr : Value → (Value → Value) → OptionOp
  | mapOrElse : (Unit → Value) → (Value → Value) → OptionOp
  | zip : Option → OptionOp
  | zipWith : Option → (Value → Value → Value) → OptionOp
  | and : Option → OptionOp
  | or : Option → OptionOp
  | xor : Option → OptionOp
  | andThen : (Value → Option) → OptionOp
  | orElse : (Unit → Option) → OptionOp
  | intoIter : OptionOp
  | insert : Value → OptionOp
  | getOrInsert : Value → OptionOp
  | getOrInsertWith : (Unit → Value) → OptionOp
  | getOrInsertDefault : OptionOp
  | take : OptionOp
  | replace : Value → OptionOp

/-- The five methods the documentation names as in-place mutators. -/
def OptionOp.isMutator : OptionOp → Bool
  | .insert _ => true
  | .getOrInsert _ => true
  | .getOrInsertWith _ => true
  | .take => true
  | .replace _ => true
  | _ => false

/-- The `Option` containers passed to the operation as arguments. -/
def OptionOp.optionArgs : OptionOp → List Option
  | .zip other => [other]
  | .zipWith other _ => [other]
  | .and other => [other]
  | .or other => [other]
  | .xor other => [other]
  | _ => []

/-- Receiver state and argument-container states after calling an `Option`
method.  The mutators' receiver states come from their pair-valued
definitions; every other method body contains no assignment to
`this.internal`, and no method body assigns to an argument's internal
state. -/
def Option.effect : OptionOp → Option → Option × List Option
  | .isNone, o => (o, [])
  | .isSome, o => (o, [])
  | .expect _, o => (o, [])
  | .unwrap, o => (o, [])
  | .unwrapOr _, o => (o, [])
  | .unwrapOrElse _, o => (o, [])
  | .unwrapOrDefault, o => (o, [])
  | .okOr _, o => (o, [])
  | .okOrElse _, o => (o, [])
  | .transpose, o => (o, [])
  | .filter _, o => (o, [])
  | .flatten, o => (o, [])
  | .map _, o => (o, [])
  | .mapOr _ _, o => (o, [])
  | .mapOrElse _ _, o => (o, [])
  | .zip other, o => (o, [other])
  | .zipWith other _, o => (o, [other])
  | .and other, o => (o, [other])
  | .or other, o => (o, [other])
  | .xor other, o => (o, [other])
  | .andThen _, o => (o, [])
  | .orElse _, o => (o, [])
  | .intoIter, o => (o, [])
  | .insert v, o => ((Option.insert v o).2, [])
  | .getOrInsert v, o => ((Option.getOrInsert v o).2, [])
  | .getOrInsertWith f, o => ((Option.getOrInsertWith f o).2, [])
  | .getOrInsertDefault, o => (o, [])
  | .take, o => ((Option.take o).2, [])
  | .replace v, o => ((Option.replace v o).2, [])

/-- The public methods of `Result<T, E>` with their arguments. -/
inductive ResultOp : Type where
  | isOk : ResultOp
  | isErr : ResultOp
  | expect : String → ResultOp
  | unwrap : ResultOp
  | unwrapOr : Value → ResultOp
  | unwrapOrElse : (Value → Value) → ResultOp
  | unwrapOrDefault : ResultOp
  | expectErr : String → ResultOp
  | unwrapErr : ResultOp
  | err : ResultOp
  | ok : ResultOp
  | transpose : ResultOp
  | map : (Value → Value) → ResultOp
  | mapErr : (Value → Value) → ResultOp
  | mapOr : Value → (Value → Value) → ResultOp
  | mapOrElse : (Value → Value) → (Value → Value) → ResultOp
  | and : Result → ResultOp
  | or : Result → ResultOp
  | andThen : (Value → Result) → ResultOp
  | orElse : (Value → Result) → ResultOp
  | intoIter : ResultOp

/-- The `Result` containers passed to the operation as arguments. -/
def ResultOp.resultArgs : ResultOp → List Result
  | .and other => [other]
  | .or other => [other]
  | _ => []

/-- Receiver state and argument-container states after calling a `Result`
method: no method body of the class contains an assignment. -/
def Result.effect : ResultOp → Result → Result × List Result
  | .isOk, r => (r, [])
  | .isErr, r => (r, [])
  | .expect _, r => (r, [])
  | .unwrap, r => (r, [])
  | .unwrapOr _, r => (r, [])
  | .unwrapOrElse _, r => (r, [])
  | .unwrapOrDefault, r => (r, [])
  | .expectErr _, r => (r, [])
  | .unwrapErr, r => (r, [])
  | .err, r => (r, [])
  | .ok, r => (r, [])
  | .transpose, r => (r, [])
  | .map _, r => (r, [])
  | .mapErr _, r => (r, [])
  | .mapOr _ _, r => (r, [])
  | .mapOrElse _ _, r => (r, [])
  | .and other, r => (r, [other])
  | .or other, r => (r, [other])
  | .andThen _, r => (r, [])
  | .orElse _, r => (r, [])
  | .intoIter, r => (r, [])

/-! ## Theorems -/

/-- Claim C1: claimed — `Result.transpose` maps `Ok(Some(v))` to
`Some(Ok(v))`, so that `Result.Ok(Optional.Some(5)).transpose().unwrap()` is
a `Result` on which `unwrap()` returns `5`.  The code instead wraps the raw
inner value: `transpose()` on `Ok(Some(5))` evaluates to `Some(5)`, whose
payload is the plain number `5` and not a `Result`, while the `Err` and
`Ok(None)` cases do behave as claimed. -/
theorem C1_result_transpose_ok_some_raw :
    Result.transpose (Result.Ok (Value.opt (Option.Some (Value.num 5)))) =
      Except.ok (Option.Some (Value.num 5)) ∧
    Result.transpose (Result.Ok (Value.opt Option.None)) =
      Except.ok Option.None ∧
    Result.transpose (Result.Err (Value.str "e")) =
      Except.ok (Option.Some (Value.res (Result.Err (Value.str "e")))) :=
  ⟨rfl, rfl, rfl⟩

/-- Claim C2: claimed — `Option.transpose` maps `Some(Ok(v))` to
`Result.Ok(Some(v))`.  The code instead wraps the raw inner value:
`transpose()` on `Some(Ok(5))` evaluates to `Result.Ok(5)`, whose payload is
the plain number `5` and not an `Optional`, while the `None`, `Some(Err(e))`
and invalid-nesting cases do behave as claimed. -/
theorem C2_option_transpose_some_ok_raw :
    Option.transpose (Option.Some (Value.res (Result.Ok (Value.num 5)))) =
      Except.ok (Result.Ok (Value.num 5)) ∧
    Option.transpose Option.None =
      Except.ok (Result.Ok (Value.opt Option.None)) ∧
    Option.transpose (Option.Some (Value.res (Result.Err (Value.str "e")))) =
      Except.ok (Result.Err (Value.str "e")) ∧
    Option.transpose (Option.Some (Value.num 7)) =
      Except.error "Called `transpose` on a invalid `Some` value." :=
  ⟨rfl, rfl, rfl, rfl⟩

/-- Claim C3: claimed — `xor` yields `None` when both containers are `Some`,
so `Optional.Some(1).xor(Optional.Some(2))` yields `None`.  In the code both
`Some` inputs fall through the two guarded branches to `return this`, so
`Some(1).xor(Some(2))` evaluates to `Some(1)`; the mixed case
`None.xor(Some(2)) = Some(2)` does behave as claimed. -/
theorem C3_xor_both_some_returns_self :
    Option.xor (Option.Some (Value.num 1)) (Option.Some (Value.num 2)) =
      Option.Some (Value.num 1) ∧
    Option.xor Option.None (Option.Some (Value.num 2)) =
      Option.Some (Value.num 2) :=
  ⟨rfl, rfl⟩

/-- Claim C4: for every value `v` and error `e`,
`Optional.Some(v).okOr(e).ok().unwrap()` returns `v` and
`Optional.None().okOr(e).unwrapErr()` returns `e`: `okOr` maps `Some(v)` to
`Ok(v)` and `None` to `Err(e)`, and the `ok()` / `unwrapErr()` projections
recover exactly the original value or error. -/
theorem C4_okOr_roundtrip (v e : Value) :
    Option.unwrap (Result.ok (Option.okOr e (Option.Some v))) = Except.ok v ∧
    Result.unwrapErr (Option.okOr e Option.None) = Except.ok e ∧
    Option.okOr e (Option.Some v) = Result.Ok v ∧
    Option.okOr e Option.None = Result.Err e :=
  ⟨rfl, rfl, rfl, rfl⟩

/-- Witness for C4 at `v = 3`, `e = "gone"`. -/
theorem C4_okOr_roundtrip_witness :
    Option.unwrap (Result.ok (Option.okOr (Value.str "gone")
      (Option.Some (Value.num 3)))) = Except.ok (Value.num 3) :=
  (C4_okOr_roundtrip (Value.num 3) (Value.str "gone")).1

/-- Claim C5: on `Optional`, `unwrap()` and `expect(msg)` return the value on
`Some` and raise exactly on `None`, `expect`'s error carrying `msg`; on
`Result`, `unwrap()` and `expect(msg)` return the `Ok` value and raise
exactly on `Err`, the error carrying the stringified error payload — so
`Result.Err("boom").unwrap()` raises an error whose message is `"boom"` and
`Optional.None().expect("missing")` raises an error whose message is
`"missing"`. -/
theorem C5_unwrap_expect_errors (v e : Value) (msg : String) :
    Option.unwrap (Option.Some v) = Except.ok v ∧
    Option.expect msg (Option.Some v) = Except.ok v ∧
    Option.unwrap Option.None =
      Except.error "Called `Option.unwrap()` on a `None` value." ∧
    Option.expect msg Option.None = Except.error msg ∧
    Result.unwrap (Result.Ok v) = Except.ok v ∧
    Result.expect msg (Result.Ok v) = Except.ok v ∧
    Result.unwrap (Result.Err e) = Except.error e.toJsString ∧
    Result.expect msg (Result.Err e) =
      Except.error (msg ++ ": " ++ e.toJsString) ∧
    Result.unwrap (Result.Err (Value.str "boom")) = Except.error "boom" ∧
    Option.expect "missing" Option.None = Except.error "missing" :=
  ⟨rfl, rfl, rfl, rfl, rfl, rfl, rfl, rfl, rfl, rfl⟩

/-- Witness for C5 at `v = 1`, `e = "boom"`, `msg = "missing"`. -/
theorem C5_unwrap_expect_errors_witness :
    Option.expect "missing" Option.None = Except.error "missing" :=
  (C5_unwrap_expect_errors (Value.num 1) (Value.str "boom")
    "missing").2.2.2.2.2.2.2.2.2

/-- Claim C6: for every `Optional` `o`, `take()` returns a container holding
`o`'s previous variant and leaves the receiver `None` afterwards, and
`replace(v)` returns the previous variant and leaves the receiver `Some(v)`
afterwards; in particular taking from `Some(1)` returns `Some(1)`. -/
theorem C6_take_replace (o : Option) (v : Value) :
    (Option.take o).1 = o ∧
    Option.isNone (Option.take o).2 = true ∧
    (Option.replace v o).1 = o ∧
    (Option.replace v o).2 = Option.Some v ∧
    (Option.take (Option.Some (Value.num 1))).1 = Option.Some (Value.num 1) :=
  ⟨rfl, rfl, rfl, rfl, rfl⟩

/-- Witness for C6 at `o = Some(1)`, `v = 2`. -/
theorem C6_take_replace_witness :
    (Option.take (Option.Some (Value.num 1))).1 = Option.Some (Value.num 1) :=
  (C6_take_replace (Option.Some (Value.num 1)) (Value.num 2)).1

/-- Claim C7: on every `Optional` and every `Result`, in either variant,
`unwrapOrDefault()` (and, on `Optional`, `getOrInsertDefault()`) fails
unconditionally — it never returns a value, never silently no-ops, and never
changes the container's state. -/
theorem C7_default_ops_always_fail (o : Option) (r : Result) :
    Option.unwrapOrDefault o =
      Except.error
        "Not implemented: use either `unwrapOr` or `unwrapOrElse` instead." ∧
    Option.getOrInsertDefault o =
      Except.error
        "Not implemented: use either `getOrInsert` or `getOrInsertWith` instead." ∧
    Result.unwrapOrDefault r =
      Except.error
        "Not implemented: use either `unwrapOr` or `unwrapOrElse` instead." ∧
    Option.effect OptionOp.unwrapOrDefault o = (o, []) ∧
    Option.effect OptionOp.getOrInsertDefault o = (o, []) ∧
    Result.effect ResultOp.unwrapOrDefault r = (r, []) :=
  ⟨rfl, rfl, rfl, rfl, rfl, rfl⟩

/-- Witness for C7 at `o = Some(1)`, `r = Ok(1)`. -/
theorem C7_default_ops_always_fail_witness :
    Option.effect OptionOp.unwrapOrDefault (Option.Some (Value.num 1)) =
      (Option.Some (Value.num 1), []) :=
  (C7_default_ops_always_fail (Option.Some (Value.num 1))
    (Result.Ok (Value.num 1))).2.2.2.1

/-- Claim C8: every `Option` operation other than the five in-place mutators
(`insert`, `getOrInsert`, `getOrInsertWith`, `take`, `replace`) leaves the
receiver's state unchanged; every `Result` operation leaves its receiver
unchanged; and no operation of either class changes a container passed as an
argument. -/
theorem C8_frame_conditions (op : OptionOp) (o : Option)
    (rop : ResultOp) (r : Result) :
    (OptionOp.isMutator op = false → (Option.effect op o).1 = o) ∧
    (Option.effect op o).2 = OptionOp.optionArgs op ∧
    Result.effect rop r = (r, ResultOp.resultArgs rop) := by
  refine ⟨?_, ?_, ?_⟩
  · cases op <;> simp [Option.effect, OptionOp.isMutator]
  · cases op <;> rfl
  · cases rop <;> rfl

/-- Witness for C8 at concrete non-mutating operations and containers. -/
theorem C8_frame_conditions_witness :
    (Option.effect (OptionOp.xor Option.None)
      (Option.Some (Value.num 1))).1 = Option.Some (Value.num 1) ∧
    (Option.effect (OptionOp.xor Option.None)
      (Option.Some (Value.num 1))).2 = [Option.None] ∧
    Result.effect ResultOp.isOk (Result.Ok (Value.num 1)) =
      (Result.Ok (Value.num 1), []) :=
  ⟨(C8_frame_conditions (OptionOp.xor Option.None) (Option.Some (Value.num 1))
      ResultOp.isOk (Result.Ok (Value.num 1))).1 rfl,
   (C8_frame_conditions (OptionOp.xor Option.None) (Option.Some (Value.num 1))
      ResultOp.isOk (Result.Ok (Value.num 1))).2.1,
   (C8_frame_conditions (OptionOp.xor Option.None) (Option.Some (Value.num 1))
      ResultOp.isOk (Result.Ok (Value.num 1))).2.2⟩

/-- Claim C9: for every `Optional` `o` and all pure functions `f` and `g`,
`o.map(f).map(g)` equals `o.map(x => g(f(x)))`, in both the `Some` and the
`None` case. -/
theorem C9_map_composition (o : Option) (f g : Value → Value) :
    Option.map g (Option.map f o) = Option.map (fun x => g (f x)) o := by
  cases o <;> rfl

/-- Witness for C9 at `o = Some(2)`, `f = pairing with itself`,
`g = identity`. -/
theorem C9_map_composition_witness :
    Option.map (fun x => x)
        (Option.map (fun x => Value.pair x x) (Option.Some (Value.num 2))) =
      Option.map (fun x => (fun y => y) ((fun y => Value.pair y y) x))
        (Option.Some (Value.num 2)) :=
  C9_map_composition (Option.Some (Value.num 2))
    (fun y => Value.pair y y) (fun y => y)

/-- Claim C10: for every payload `v`, including `null` and `undefined`,
`Optional.Some(v)` is a container for which `isSome()` is true, `isNone()`
is false, and `unwrap()` returns `v`: the variant is determined solely by
the constructor, never by inspecting the payload. -/
theorem C10_some_never_collapses (v : Value) :
    Option.isSome (Option.Some v) = true ∧
    Option.isNone (Option.Some v) = false ∧
    Option.unwrap (Option.Some v) = Except.ok v ∧
    Option.isSome (Option.Some Value.null) = true ∧
    Option.isSome (Option.Some Value.undefined) = true ∧
    Option.unwrap (Option.Some Value.null) = Except.ok Value.null :=
  ⟨rfl, rfl, rfl, rfl, rfl, rfl⟩

/-- Witness for C10 at `v = undefined`. -/
theorem C10_some_never_collapses_witness :
    Option.unwrap (Option.Some Value.undefined) = Except.ok Value.undefined :=
  (C10_some_never_collapses Value.undefined).2.2.1

end TsRust
